import Mathlib

/-!
Shallow embedding of `src/snake.py`, a terminal snake game built on curses.

Conventions of the embedding:
* A Python cell `[row, col]` is an `Int × Int` (Python ints, value equality).
* Directions are raw curses key codes held in Python int variables, exactly
  as in the source (`direction = KEY_RIGHT`, `process_key_input` returns key
  codes), so they are `Int` here with the numeric values of the curses
  constants.
* `random.randint(1, h-2)` / `random.randint(1, w-2)` is modelled by an
  explicit stream (list) of candidate cells: each list element stands for
  one draw of the pair of `randint` calls at line 129; `randint`'s contract
  (the result lies in the inclusive range) becomes a hypothesis on the
  stream.  The unbounded `while True` retry loop becomes structural
  recursion on the stream, returning `none` when the stream is exhausted.
* Board dimensions `h`, `w` (from `win.getmaxyx()`) and terminal sizes
  `sh`, `sw` are `Nat` (they are non-negative sizes in the source).
-/

namespace Snake

/-- A grid cell: the Python list `[y, x]` of line 43 etc., with value
semantics (`==` on Python lists compares elementwise). -/
abbrev Cell := Int × Int

/-- curses `KEY_DOWN` (octal 0o402). -/
def KEY_DOWN : Int := 258

/-- curses `KEY_UP` (octal 0o403). -/
def KEY_UP : Int := 259

/-- curses `KEY_LEFT` (octal 0o404). -/
def KEY_LEFT : Int := 260

/-- curses `KEY_RIGHT` (octal 0o405). -/
def KEY_RIGHT : Int := 261

/-- Python `ord('q')`. -/
def ord_q : Int := 113

/-- Python `ord('r')`. -/
def ord_r : Int := 114

/-- `process_key_input(key, current_direction)`, lines 133-145 of
`src/snake.py`: the if/elif chain mapping a raw key code to the new
direction, keeping the current direction for non-arrow keys and for an
arrow key opposite to the current direction. -/
def process_key_input (key current_direction : Int) : Int :=
  if key = KEY_DOWN ∧ current_direction ≠ KEY_UP then KEY_DOWN
  else if key = KEY_UP ∧ current_direction ≠ KEY_DOWN then KEY_UP
  else if key = KEY_LEFT ∧ current_direction ≠ KEY_RIGHT then KEY_LEFT
  else if key = KEY_RIGHT ∧ current_direction ≠ KEY_LEFT then KEY_RIGHT
  else current_direction

/-- The if/elif chain of lines 150-157: shift a cell one unit along the
axis of `direction`, or leave it unchanged for a non-arrow value. -/
def shift_head (c : Cell) (direction : Int) : Cell :=
  if direction = KEY_DOWN then (c.1 + 1, c.2)
  else if direction = KEY_UP then (c.1 - 1, c.2)
  else if direction = KEY_LEFT then (c.1, c.2 - 1)
  else if direction = KEY_RIGHT then (c.1, c.2 + 1)
  else c

/-- `calculate_new_head(snake, direction)`, lines 147-158: copy the head
cell `snake[0]` and shift it by the direction.  The Python `snake[0]` on an
empty list would raise; the embedding supplies a default that theorems
never rely on (claims about this function assume a non-empty snake). -/
def calculate_new_head (snake : List Cell) (direction : Int) : Cell :=
  shift_head (snake.headD (0, 0)) direction

/-- The border test of lines 89-90: `new_head[0] in [0, h-1] or
new_head[1] in [0, w-1]`. -/
def hits_border (h w : Nat) (nh : Cell) : Prop :=
  nh.1 = 0 ∨ nh.1 = (h : Int) - 1 ∨ nh.2 = 0 ∨ nh.2 = (w : Int) - 1

instance (h w : Nat) (nh : Cell) : Decidable (hits_border h w nh) := by
  unfold hits_border; infer_instance

/-- The whole collision condition of lines 89-91:
`new_head[0] in [0, h-1] or new_head[1] in [0, w-1] or new_head in snake`. -/
def collides (h w : Nat) (snake : List Cell) (nh : Cell) : Prop :=
  hits_border h w nh ∨ nh ∈ snake

instance (h w : Nat) (snake : List Cell) (nh : Cell) :
    Decidable (collides h w snake nh) := by
  unfold collides; infer_instance

/-- The two disjuncts of the collision condition, labelled.  Python's `or`
short-circuits, so the border disjuncts of line 89-90 are evaluated before
the membership test of line 91. -/
inductive CollisionKind where
  | wall
  | self
  deriving DecidableEq, Repr

/-- Which disjunct of the or-chain of lines 89-91 fires first, following
Python's left-to-right short-circuit evaluation: the border test (wall)
is checked before membership in the snake (self). -/
def collision_kind (h w : Nat) (snake : List Cell) (nh : Cell) :
    Option CollisionKind :=
  if hits_border h w nh then some .wall
  else if nh ∈ snake then some .self
  else none

/-- The game state mutated by the loop of `main`: the snake list, the food
cell and the score (lines 42-56). -/
structure GameState where
  snake : List Cell
  food : Cell
  score : Nat
  deriving DecidableEq, Repr

/-- Result of one tick's state update (lines 86-121): either the collision
branch is taken (the `game_over` call receives the score, and none of
`snake`, `food`, `score` has been reassigned — the state is carried
unchanged), or the snake moves. -/
inductive TickResult where
  | gameOver (finalScore : Nat) (s : GameState)
  | ok (s : GameState)
  deriving DecidableEq, Repr

/-- One tick's state update, lines 86-121 of `main`, with the direction
already updated by the input handling and the food cell that
`create_food` would return passed in as `newFood`:
compute `new_head` (line 86); if it collides (lines 89-91) take the
game-over branch with the current score (line 93) and the state untouched;
otherwise insert the head (line 110), then either grow and score on food
(lines 113-117) or pop the tail (line 120). -/
def advance (h w : Nat) (direction : Int) (newFood : Cell) (s : GameState) :
    TickResult :=
  let nh := calculate_new_head s.snake direction
  if collides h w s.snake nh then
    .gameOver s.score s
  else
    let snake1 := nh :: s.snake
    if nh = s.food then
      .ok ⟨snake1, newFood, s.score + 1⟩
    else
      .ok ⟨snake1.dropLast, s.food, s.score⟩

/-- `create_food(h, w, snake)`, lines 126-131: draw candidate cells until
one outside the snake is found.  Each element of `stream` is the pair of
`randint(1, h-2)`, `randint(1, w-2)` results of one iteration of the
`while True` loop; an exhausted stream models non-termination as `none`. -/
def create_food (snake : List Cell) : List Cell → Option Cell
  | [] => none
  | f :: rest => if f ∈ snake then create_food snake rest else some f

/-- The range `randint(1, h-2) × randint(1, w-2)` of line 129 — also the
playable interior of the board (strictly inside the border rows/columns). -/
def in_interior (h w : Nat) (c : Cell) : Prop :=
  1 ≤ c.1 ∧ c.1 ≤ (h : Int) - 2 ∧ 1 ≤ c.2 ∧ c.2 ≤ (w : Int) - 2

instance (h w : Nat) (c : Cell) : Decidable (in_interior h w c) := by
  unfold in_interior; infer_instance

/-- The spawn snake of lines 40-46 (and of the reset branch, lines 96-100):
three cells at row `h // 2`, columns `w // 4`, `w // 4 - 1`, `w // 4 - 2`. -/
def spawn_snake (h w : Nat) : List Cell :=
  let snake_y : Int := (h / 2 : Nat)
  let snake_x : Int := (w / 4 : Nat)
  [(snake_y, snake_x), (snake_y, snake_x - 1), (snake_y, snake_x - 2)]

/-- States reachable in the Playing phase of `main` for a board of
dimensions `h × w`: the spawn configuration of lines 42-56 (the initial
food and the food after any growth are arbitrary cells here — claims about
the snake do not depend on them; the reset of lines 96-104 re-creates the
same spawn configuration), closed under non-colliding ticks. -/
inductive Reachable (h w : Nat) : GameState → Prop
  | spawn (food : Cell) : Reachable h w ⟨spawn_snake h w, food, 0⟩
  | step (s s' : GameState) (direction : Int) (newFood : Cell) :
      Reachable h w s → advance h w direction newFood s = .ok s' →
      Reachable h w s'

/-- The snake invariant: pairwise-distinct cells, all strictly inside the
playable interior. -/
def SnakeInv (h w : Nat) (snake : List Cell) : Prop :=
  snake.Nodup ∧ ∀ c ∈ snake, in_interior h w c

/-- What the `game_over` screen's wait loop (lines 206-211) does with a
sequence of `stdscr.getch()` results: the first `'r'` returns `True`
(restart), the first `'q'` returns `False` (quit), anything else —
including the `-1` produced by the 100 ms timeout — keeps waiting.
An exhausted list models a loop that has not yet decided. -/
def game_over_wait : List Int → Option Bool
  | [] => none
  | k :: rest =>
    if k = ord_r then some true
    else if k = ord_q then some false
    else game_over_wait rest

/-- Outcome of the collision branch of the game loop (lines 93-107). -/
inductive GameOverResult where
  | restart (s : GameState) (direction : Int)
  | terminated
  deriving DecidableEq, Repr

/-- The collision branch, lines 93-107: show the game-over screen and wait
(lines 206-211); on `'r'` reset the snake to the spawn cells, the direction
to `KEY_RIGHT`, the food to a fresh `create_food` result and the score to 0
and continue playing (lines 95-105); on `'q'` break out of the loop
(line 107).  `keys` feeds the wait loop; `stream` feeds `create_food`. -/
def after_game_over (h w : Nat) (keys : List Int) (stream : List Cell) :
    Option GameOverResult :=
  match game_over_wait keys with
  | some true =>
    match create_food (spawn_snake h w) stream with
    | some f => some (.restart ⟨spawn_snake h w, f, 0⟩ KEY_RIGHT)
    | none => none
  | some false => some .terminated
  | none => none

/-- Result of the startup of `main`, lines 21-67. -/
inductive StartupResult where
  | tooSmall
  | play (h w : Nat) (s : GameState) (direction : Int)
  deriving DecidableEq, Repr

/-- Startup, lines 21-67 of `main`: read the terminal size; if
`sh < 10 or sw < 30`, print the "Terminal too small" message and return
(lines 24-29); otherwise build the `(sh-2) × (sw-2)` game window
(line 32), spawn the snake (lines 40-46), set the direction to `KEY_RIGHT`
(line 49), create the initial food (line 52), set the score to 0 (line 56)
and enter the game loop.  `none` models a `create_food` call that never
finds a free cell. -/
def main_startup (sh sw : Nat) (stream : List Cell) : Option StartupResult :=
  if sh < 10 ∨ sw < 30 then some .tooSmall
  else
    let h := sh - 2
    let w := sw - 2
    match create_food (spawn_snake h w) stream with
    | some f => some (.play h w ⟨spawn_snake h w, f, 0⟩ KEY_RIGHT)
    | none => none

/-- A `getch` on a window whose `timeout` is set (lines 18 and 34 set a
100 ms timeout on `stdscr` and `win`): if a key arrives within the
interval it is returned, otherwise `getch` returns `-1`.  `pending = none`
means no key was pressed within the interval. -/
def getch_with_timeout (pending : Option Int) : Int :=
  pending.getD (-1)

/-- What happens after the instructions screen. -/
inductive InstrOutcome where
  | enterPlaying
  deriving DecidableEq, Repr

/-- `show_instructions(stdscr, sh, sw)`, lines 160-179: draw the help text,
call `stdscr.getch()` once (line 179) — whose result is discarded — and
return, upon which `main` (line 67) enters the game loop.  Because `main`
set `stdscr.timeout(100)` at line 18, this `getch` is the timeout variant:
it returns `-1` after 100 ms if no key was pressed. -/
def show_instructions (pending : Option Int) : Int × InstrOutcome :=
  (getch_with_timeout pending, .enterPlaying)

/-- Heap model for `calculate_new_head`, used to state its frame effect.
Python cells are heap objects (lists); the heap is a list of cell values
indexed by object id, the snake a list of object ids.  Lines 149-158:
`new_head = snake[0].copy()` allocates a fresh object holding a copy of the
head's value, and the subsequent `+=`/`-=` mutate only that fresh object.
Returns the new heap and the id of the fresh object. -/
def calculate_new_head_heap (heap : List Cell) (snake : List Nat)
    (direction : Int) : List Cell × Nat :=
  let headVal := heap.getD (snake.headD 0) (0, 0)
  (heap ++ [shift_head headVal direction], heap.length)

/-! ### Helper lemmas -/

theorem advance_ok_elim (h w : Nat) (d : Int) (nf : Cell) (s s' : GameState)
    (hok : advance h w d nf s = .ok s') :
    ¬ collides h w s.snake (calculate_new_head s.snake d) ∧
    ((calculate_new_head s.snake d = s.food ∧
        s' = ⟨calculate_new_head s.snake d :: s.snake, nf, s.score + 1⟩) ∨
     (calculate_new_head s.snake d ≠ s.food ∧
        s' = ⟨(calculate_new_head s.snake d :: s.snake).dropLast, s.food, s.score⟩)) := by
  unfold advance at hok
  by_cases hc : collides h w s.snake (calculate_new_head s.snake d)
  · simp [hc] at hok
  · rw [if_neg hc] at hok
    refine ⟨hc, ?_⟩
    by_cases hf : calculate_new_head s.snake d = s.food
    · rw [if_pos hf] at hok
      exact Or.inl ⟨hf, (TickResult.ok.injEq _ _).mp hok.symm⟩
    · rw [if_neg hf] at hok
      exact Or.inr ⟨hf, (TickResult.ok.injEq _ _).mp hok.symm⟩

theorem advance_gameOver_elim (h w : Nat) (d : Int) (nf : Cell) (s : GameState)
    (fs : Nat) (st : GameState)
    (hgo : advance h w d nf s = .gameOver fs st) :
    collides h w s.snake (calculate_new_head s.snake d) ∧ fs = s.score ∧ st = s := by
  unfold advance at hgo
  by_cases hc : collides h w s.snake (calculate_new_head s.snake d)
  · rw [if_pos hc] at hgo
    obtain ⟨h1, h2⟩ := (TickResult.gameOver.injEq _ _ _ _).mp hgo
    exact ⟨hc, h1.symm, h2.symm⟩
  · rw [if_neg hc] at hgo
    by_cases hf : calculate_new_head s.snake d = s.food <;>
      simp [hf] at hgo

theorem create_food_sound (snake : List Cell) (stream : List Cell) (f : Cell)
    (hf : create_food snake stream = some f) : f ∉ snake ∧ f ∈ stream := by
  induction stream with
  | nil => simp [create_food] at hf
  | cons c rest ih =>
    unfold create_food at hf
    by_cases hc : c ∈ snake
    · rw [if_pos hc] at hf
      obtain ⟨h1, h2⟩ := ih hf
      exact ⟨h1, List.mem_cons_of_mem _ h2⟩
    · rw [if_neg hc] at hf
      obtain rfl : c = f := Option.some.injEq _ _ ▸ hf
      exact ⟨hc, List.mem_cons_self _ _⟩

theorem create_food_complete (snake : List Cell) (stream : List Cell)
    (hfree : ∃ c ∈ stream, c ∉ snake) : (create_food snake stream).isSome := by
  induction stream with
  | nil => simp at hfree
  | cons c rest ih =>
    unfold create_food
    by_cases hc : c ∈ snake
    · rw [if_pos hc]
      apply ih
      obtain ⟨x, hx, hxs⟩ := hfree
      rcases List.mem_cons.mp hx with rfl | hx'
      · exact absurd hc hxs
      · exact ⟨x, hx', hxs⟩
    · rw [if_neg hc]; rfl

/-! ### Claim theorems -/

/-- Claim C1: for every tick in Playing whose move does not collide, if the
new head cell equals the food cell, the snake's length increases by exactly
one (the tail is not removed that tick) and the score increases by exactly
one; otherwise the snake's length and the score are unchanged (the new head
is prepended and the last cell is removed). -/
theorem tick_length_score (h w : Nat) (d : Int) (nf : Cell) (s s' : GameState)
    (hok : advance h w d nf s = .ok s') :
    (calculate_new_head s.snake d = s.food →
      s'.snake.length = s.snake.length + 1 ∧ s'.score = s.score + 1) ∧
    (calculate_new_head s.snake d ≠ s.food →
      s'.snake = (calculate_new_head s.snake d :: s.snake).dropLast ∧
      s'.snake.length = s.snake.length ∧ s'.score = s.score) := by
  obtain ⟨-, hcase⟩ := advance_ok_elim h w d nf s s' hok
  rcases hcase with ⟨hf, rfl⟩ | ⟨hf, rfl⟩
  · exact ⟨fun _ => ⟨by simp, rfl⟩, fun hne => absurd hf hne⟩
  · refine ⟨fun heq => absurd heq hf, fun _ => ⟨rfl, ?_, rfl⟩⟩
    simp [List.length_dropLast]

/-- Witness for C1, on the spec's scenario: snake `[(5,5),(5,4),(5,3)]`
moving Right into food at `(5,6)` grows to length 4 with score 1; the same
snake moving Right with food elsewhere keeps length 3 and score 0. -/
theorem tick_length_score_witness :
    ([((5 : Int), (6 : Int)), (5, 5), (5, 4), (5, 3)].length = [((5 : Int), (5 : Int)), (5, 4), (5, 3)].length + 1 ∧ (1 : Nat) = 0 + 1) ∧
    ([((5 : Int), (6 : Int)), (5, 5), (5, 4)].length = [((5 : Int), (5 : Int)), (5, 4), (5, 3)].length ∧ (0 : Nat) = 0) := by
  refine ⟨(tick_length_score 10 30 KEY_RIGHT (2, 2)
      ⟨[(5, 5), (5, 4), (5, 3)], (5, 6), 0⟩
      ⟨[(5, 6), (5, 5), (5, 4), (5, 3)], (2, 2), 1⟩ (by decide)).1 (by decide), ?_⟩
  have h2 := (tick_length_score 10 30 KEY_RIGHT (2, 2)
      ⟨[(5, 5), (5, 4), (5, 3)], (7, 7), 0⟩
      ⟨[(5, 6), (5, 5), (5, 4)], (7, 7), 0⟩ (by decide)).2 (by decide)
  exact ⟨h2.2.1, h2.2.2⟩

/-- Claim C2: `advance` takes the collision branch exactly when the new
head lies on a border row or column (row 0, row `h-1`, column 0 or column
`w-1`) or equals a cell of the current snake; and when the new head is both
on the border and on a snake cell, the border disjunct fires first
(Python's short-circuit `or` at lines 89-91 checks the border before
membership in the snake), so the collision is a wall collision. -/
theorem collision_iff_and_wall_precedence (h w : Nat) (d : Int) (nf : Cell)
    (s : GameState) :
    ((∃ fs st, advance h w d nf s = .gameOver fs st) ↔
      ((calculate_new_head s.snake d).1 = 0 ∨
       (calculate_new_head s.snake d).1 = (h : Int) - 1 ∨
       (calculate_new_head s.snake d).2 = 0 ∨
       (calculate_new_head s.snake d).2 = (w : Int) - 1 ∨
       calculate_new_head s.snake d ∈ s.snake)) ∧
    (hits_border h w (calculate_new_head s.snake d) →
      calculate_new_head s.snake d ∈ s.snake →
      collision_kind h w s.snake (calculate_new_head s.snake d) =
        some CollisionKind.wall) := by
  constructor
  · constructor
    · rintro ⟨fs, st, hgo⟩
      have hc := (advance_gameOver_elim h w d nf s fs st hgo).1
      rcases hc with hb | hm
      · rcases hb with h1 | h1 | h1 | h1 <;> simp [h1]
      · simp [hm]
    · intro hcond
      have hc : collides h w s.snake (calculate_new_head s.snake d) := by
        rcases hcond with h1 | h1 | h1 | h1 | h1
        · exact Or.inl (Or.inl h1)
        · exact Or.inl (Or.inr (Or.inl h1))
        · exact Or.inl (Or.inr (Or.inr (Or.inl h1)))
        · exact Or.inl (Or.inr (Or.inr (Or.inr h1)))
        · exact Or.inr h1
      exact ⟨s.score, s, by unfold advance; rw [if_pos hc]⟩
  · intro hb _
    unfold collision_kind
    rw [if_pos hb]

/-- Witness for C2: head `(0,5)` of the snake `[(0,5),(1,5)]` moving along
a non-arrow direction stays at `(0,5)`, which is both on border row 0 and a
snake cell; the tick ends in the game-over branch and the evaluation order
labels the collision a wall collision. -/
theorem collision_iff_and_wall_precedence_witness :
    (∃ fs st, advance 10 30 0 (2, 2) ⟨[(0, 5), (1, 5)], (3, 3), 0⟩ = .gameOver fs st) ∧
    collision_kind 10 30 [((0 : Int), (5 : Int)), (1, 5)] (0, 5) =
      some CollisionKind.wall := by
  have ht := collision_iff_and_wall_precedence 10 30 0 (2, 2) ⟨[(0, 5), (1, 5)], (3, 3), 0⟩
  exact ⟨ht.1.mpr (by decide), ht.2 (by decide) (by decide)⟩

/-- Claim C3: whenever a tick collides, the collision outcome carries the
final score (the score passed to `game_over` at line 93 is the current
score) and the state is otherwise unmodified: the snake, score and food are
exactly what they were before the tick. -/
theorem collision_preserves_state (h w : Nat) (d : Int) (nf : Cell)
    (s : GameState) (fs : Nat) (st : GameState)
    (hgo : advance h w d nf s = .gameOver fs st) :
    fs = s.score ∧ st.snake = s.snake ∧ st.score = s.score ∧ st.food = s.food := by
  obtain ⟨-, hfs, rfl⟩ := advance_gameOver_elim h w d nf s fs st hgo
  exact ⟨hfs, rfl, rfl, rfl⟩

/-- Witness for C3, on the spec's scenario: head at `(1,5)` (top interior
row) moving Up hits the wall; the reported final score is the pre-tick
score 7 and snake, score and food are unchanged. -/
theorem collision_preserves_state_witness :
    (7 : Nat) = (GameState.mk [((1 : Int), (5 : Int)), (1, 4), (1, 3)] (3, 3) 7).score ∧
    (GameState.mk [((1 : Int), (5 : Int)), (1, 4), (1, 3)] (3, 3) 7).snake =
      (GameState.mk [((1 : Int), (5 : Int)), (1, 4), (1, 3)] (3, 3) 7).snake ∧
    (GameState.mk [((1 : Int), (5 : Int)), (1, 4), (1, 3)] (3, 3) 7).score =
      (GameState.mk [((1 : Int), (5 : Int)), (1, 4), (1, 3)] (3, 3) 7).score ∧
    (GameState.mk [((1 : Int), (5 : Int)), (1, 4), (1, 3)] (3, 3) 7).food =
      (GameState.mk [((1 : Int), (5 : Int)), (1, 4), (1, 3)] (3, 3) 7).food :=
  collision_preserves_state 10 30 KEY_UP (2, 2)
    ⟨[(1, 5), (1, 4), (1, 3)], (3, 3), 7⟩ 7
    ⟨[(1, 5), (1, 4), (1, 3)], (3, 3), 7⟩ (by decide)

/-- Claim C4, evidence against: `main` sets `stdscr.timeout(100)` at
line 18, so the `stdscr.getch()` at line 179 is the timeout variant; when
no key is pressed within the 100 ms interval it returns `-1`, and
`show_instructions` discards the result and returns, after which `main`
enters the Playing loop — the Instructions → Playing transition happens
with no key press received, contradicting both the on-screen prompt
"Press any key to start" and the line-179 comment "Wait for key press". -/
theorem instructions_proceed_without_key :
    show_instructions none = (-1, InstrOutcome.enterPlaying) := rfl

/-- Claim C5: whenever `create_food` returns a cell, that cell is outside
the snake's occupied set and strictly inside the playable interior (rows
`1..h-2`, columns `1..w-2`), given that every candidate drawn lies in the
`randint(1, h-2) × randint(1, w-2)` range; and whenever some draw in the
stream is a free cell (the occupancy does not cover the draws), a cell is
returned. -/
theorem create_food_ok (h w : Nat) (snake : List Cell) (stream : List Cell)
    (hrange : ∀ c ∈ stream, in_interior h w c) :
    (∀ f, create_food snake stream = some f →
      f ∉ snake ∧ in_interior h w f) ∧
    ((∃ c ∈ stream, c ∉ snake) → (create_food snake stream).isSome) := by
  constructor
  · intro f hf
    obtain ⟨hnot, hmem⟩ := create_food_sound snake stream f hf
    exact ⟨hnot, hrange f hmem⟩
  · exact create_food_complete snake stream

/-- Witness for C5: on a `10 × 30` board with the spawn snake occupied, the
stream `[(5,7),(2,2)]` first draws the snake's head and then a free cell;
the returned food `(2,2)` is free and interior. -/
theorem create_food_ok_witness :
    ((2 : Int), (2 : Int)) ∉ spawn_snake 10 30 ∧ in_interior 10 30 (2, 2) := by
  have ht := create_food_ok 10 30 (spawn_snake 10 30) [(5, 7), (2, 2)] (by decide)
  exact ht.1 (2, 2) (by decide)

/-- The geometric opposite of an arrow-key direction (vocabulary for the
no-reversal property; identity on non-arrow values). -/
def opposite (d : Int) : Int :=
  if d = KEY_UP then KEY_DOWN
  else if d = KEY_DOWN then KEY_UP
  else if d = KEY_LEFT then KEY_RIGHT
  else if d = KEY_RIGHT then KEY_LEFT
  else d

/-- Claim C6: for every raw key and every current direction among the four
arrow directions, `process_key_input` never returns the geometric opposite
of the current direction; and for a key that is not one of the four arrow
keys, or is the arrow key opposite to the current direction, it returns
the current direction unchanged. -/
theorem process_key_input_no_reversal (key current : Int)
    (hcur : current = KEY_UP ∨ current = KEY_DOWN ∨
            current = KEY_LEFT ∨ current = KEY_RIGHT) :
    process_key_input key current ≠ opposite current ∧
    ((key ≠ KEY_UP ∧ key ≠ KEY_DOWN ∧ key ≠ KEY_LEFT ∧ key ≠ KEY_RIGHT) ∨
        key = opposite current →
      process_key_input key current = current) := by
  rcases hcur with rfl | rfl | rfl | rfl <;>
    refine ⟨?_, ?_⟩ <;>
    simp only [process_key_input, opposite, KEY_UP, KEY_DOWN, KEY_LEFT,
      KEY_RIGHT] <;>
    split_ifs <;> omega

/-- Witness for C6: with current direction Up, pressing Down (the exact
opposite) leaves the direction Up, and the result is not the opposite of
Up; pressing `'q'`'s key code (not an arrow key) also leaves it Up. -/
theorem process_key_input_no_reversal_witness :
    process_key_input KEY_DOWN KEY_UP ≠ opposite KEY_UP ∧
    process_key_input KEY_DOWN KEY_UP = KEY_UP ∧
    process_key_input ord_q KEY_UP = KEY_UP := by
  have h1 := process_key_input_no_reversal KEY_DOWN KEY_UP (Or.inl rfl)
  have h2 := process_key_input_no_reversal ord_q KEY_UP (Or.inl rfl)
  exact ⟨h1.1, h1.2 (Or.inr (by decide)), h2.2 (Or.inl (by decide))⟩

theorem collides_of_nil (h w : Nat) (d : Int) :
    collides h w [] (calculate_new_head [] d) := by
  unfold calculate_new_head shift_head collides hits_border
  simp only [List.headD]
  split_ifs <;> simp

theorem spawn_snake_inv (h w : Nat) (hh : 8 ≤ h) (hw : 28 ≤ w) :
    SnakeInv h w (spawn_snake h w) := by
  constructor
  · simp only [spawn_snake, List.nodup_cons, List.mem_cons, List.mem_singleton,
      List.not_mem_nil, or_false, List.nodup_nil, and_true, Prod.mk.injEq,
      not_or, not_and, true_implies, not_false_eq_true]
    omega
  · intro c hc
    simp only [spawn_snake, List.mem_cons, List.mem_singleton,
      List.not_mem_nil, or_false] at hc
    unfold in_interior
    rcases hc with rfl | rfl | rfl <;>
      refine ⟨?_, ?_, ?_, ?_⟩ <;> simp <;> omega

theorem SnakeInv_step (h w : Nat) (d : Int) (nf : Cell) (s s' : GameState)
    (hinv : SnakeInv h w s.snake) (hok : advance h w d nf s = .ok s') :
    SnakeInv h w s'.snake := by
  obtain ⟨hnc, hcase⟩ := advance_ok_elim h w d nf s s' hok
  have hnb : ¬ hits_border h w (calculate_new_head s.snake d) :=
    fun hb => hnc (Or.inl hb)
  have hnm : calculate_new_head s.snake d ∉ s.snake :=
    fun hm => hnc (Or.inr hm)
  have hint : in_interior h w (calculate_new_head s.snake d) := by
    cases hsn : s.snake with
    | nil => rw [hsn] at hnc; exact absurd (collides_of_nil h w d) hnc
    | cons hd tl =>
      have hhd : in_interior h w hd := by
        apply hinv.2; rw [hsn]; exact List.mem_cons_self _ _
      have hne : calculate_new_head s.snake d ≠ hd := by
        intro he
        apply hnm
        rw [he, hsn]
        exact List.mem_cons_self _ _
      have hcn : calculate_new_head s.snake d = shift_head hd d := by
        rw [hsn]; rfl
      obtain ⟨y, x⟩ := hd
      rw [hcn] at hnb hne
      show in_interior h w (shift_head (y, x) d)
      unfold in_interior at hhd ⊢
      unfold hits_border at hnb
      push_neg at hnb
      unfold shift_head at hnb hne ⊢
      split_ifs at hnb hne ⊢ <;> simp_all <;> omega
  have hcons : SnakeInv h w (calculate_new_head s.snake d :: s.snake) := by
    refine ⟨List.nodup_cons.mpr ⟨hnm, hinv.1⟩, ?_⟩
    intro c hc
    rcases List.mem_cons.mp hc with rfl | hc'
    · exact hint
    · exact hinv.2 c hc'
  rcases hcase with ⟨-, rfl⟩ | ⟨-, rfl⟩
  · exact hcons
  · constructor
    · exact hcons.1.sublist (List.dropLast_sublist _)
    · intro c hc
      exact hcons.2 c ((List.dropLast_sublist _).subset hc)

/-- Claim C7: on a board with `h ≥ 8` rows and `w ≥ 28` columns (the game
window is `(sh-2) × (sw-2)` and startup requires `sh ≥ 10`, `sw ≥ 30`),
the spawn snake has length exactly 3, and in every state reachable in
Playing the snake's cells are pairwise distinct and lie strictly inside
the playable interior. -/
theorem playing_snake_invariant (h w : Nat) (hh : 8 ≤ h) (hw : 28 ≤ w) :
    (spawn_snake h w).length = 3 ∧
    ∀ s, Reachable h w s → SnakeInv h w s.snake := by
  refine ⟨rfl, ?_⟩
  intro s hs
  induction hs with
  | spawn food => exact spawn_snake_inv h w hh hw
  | step t t' dir nf hr hok ih => exact SnakeInv_step h w dir nf t t' ih hok

/-- Witness for C7: on the minimal `10 × 30` terminal's `8 × 28` board, the
spawn snake has length 3 and the spawn state (a reachable state) satisfies
the no-duplicates / strict-interior invariant. -/
theorem playing_snake_invariant_witness :
    (spawn_snake 8 28).length = 3 ∧ SnakeInv 8 28 (spawn_snake 8 28) :=
  ⟨(playing_snake_invariant 8 28 (by decide) (by decide)).1,
   (playing_snake_invariant 8 28 (by decide) (by decide)).2
     ⟨spawn_snake 8 28, (2, 2), 0⟩ (Reachable.spawn (2, 2))⟩

/-- Claim C8: on the game-over screen, pressing `'r'` yields a Playing
state with score 0, the length-3 spawn snake at the original spawn cells,
direction `KEY_RIGHT` and a freshly placed food (the `create_food` result,
which is not on the snake); pressing `'q'` yields Terminated with no state
constructed or mutated. -/
theorem game_over_restart_quit (h w : Nat) (keys : List Int)
    (stream : List Cell) (f : Cell)
    (hf : create_food (spawn_snake h w) stream = some f) :
    after_game_over h w (ord_r :: keys) stream =
      some (.restart ⟨spawn_snake h w, f, 0⟩ KEY_RIGHT) ∧
    (spawn_snake h w).length = 3 ∧
    f ∉ spawn_snake h w ∧
    after_game_over h w (ord_q :: keys) stream = some .terminated := by
  refine ⟨?_, rfl, (create_food_sound _ _ _ hf).1, ?_⟩
  · unfold after_game_over game_over_wait
    rw [if_pos rfl, hf]
  · unfold after_game_over game_over_wait
    rw [if_neg (by decide), if_pos rfl]

/-- Witness for C8: on the `8 × 28` board with spawn snake
`[(4,7),(4,6),(4,5)]` and food stream `[(2,2)]`, pressing `'r'` restarts
with that spawn snake, food `(2,2)`, score 0 and direction Right, and
pressing `'q'` terminates. -/
theorem game_over_restart_quit_witness :
    after_game_over 8 28 [ord_r] [(2, 2)] =
      some (.restart ⟨spawn_snake 8 28, (2, 2), 0⟩ KEY_RIGHT) ∧
    (spawn_snake 8 28).length = 3 ∧
    ((2 : Int), (2 : Int)) ∉ spawn_snake 8 28 ∧
    after_game_over 8 28 [ord_q] [(2, 2)] = some .terminated :=
  game_over_restart_quit 8 28 [] [(2, 2)] (2, 2) (by decide)

/-- Claim C9: startup enters the Playing loop exactly when the terminal has
`sh ≥ 10` rows and `sw ≥ 30` columns, and prints the "Terminal too small"
message and returns (clean exit, never entering Playing) exactly when it
does not.  The stream hypothesis rules out the degenerate case in which
`create_food` never finds a free cell (Python would spin forever there
before the loop, not return). -/
theorem startup_size_gate (sh sw : Nat) (stream : List Cell)
    (hstream : ∃ c ∈ stream, c ∉ spawn_snake (sh - 2) (sw - 2)) :
    ((∃ h w s d, main_startup sh sw stream = some (.play h w s d)) ↔
      (10 ≤ sh ∧ 30 ≤ sw)) ∧
    (main_startup sh sw stream = some .tooSmall ↔ ¬ (10 ≤ sh ∧ 30 ≤ sw)) := by
  by_cases hsz : sh < 10 ∨ sw < 30
  · have hm : main_startup sh sw stream = some .tooSmall := by
      unfold main_startup; rw [if_pos hsz]
    constructor
    · constructor
      · rintro ⟨h', w', s, d, hp⟩
        rw [hm] at hp
        simp at hp
      · intro hge; omega
    · constructor
      · intro _; omega
      · intro _; exact hm
  · have hsome := create_food_complete (spawn_snake (sh - 2) (sw - 2)) stream hstream
    obtain ⟨f, hf⟩ := Option.isSome_iff_exists.mp hsome
    have hm : main_startup sh sw stream =
        some (.play (sh - 2) (sw - 2) ⟨spawn_snake (sh - 2) (sw - 2), f, 0⟩
          KEY_RIGHT) := by
      unfold main_startup
      rw [if_neg hsz]
      simp only [hf]
    constructor
    · constructor
      · intro _; omega
      · intro _
        exact ⟨sh - 2, sw - 2, ⟨spawn_snake (sh - 2) (sw - 2), f, 0⟩,
          KEY_RIGHT, hm⟩
    · constructor
      · intro hp; rw [hm] at hp; simp at hp
      · intro hge; omega

/-- Witness for C9: a `9 × 80` terminal is below the 10-row minimum, so
startup prints the too-small message and never enters Playing; a `10 × 30`
terminal enters Playing. -/
theorem startup_size_gate_witness :
    main_startup 9 80 [(2, 2)] = some .tooSmall ∧
    (∃ h w s d, main_startup 10 30 [(2, 2)] = some (.play h w s d)) :=
  ⟨(startup_size_gate 9 80 [(2, 2)] ⟨(2, 2), by decide, by decide⟩).2.mpr
      (by decide),
   (startup_size_gate 10 30 [(2, 2)] ⟨(2, 2), by decide, by decide⟩).1.mpr
      (by decide)⟩

/-- Claim C10: for a non-empty snake (every id valid in the heap),
`calculate_new_head` allocates a fresh cell object — the returned id is
none of the snake's ids and every pre-existing cell, in particular the
head, is unchanged — whose value is the head shifted by exactly one unit
along the direction's axis for each of the four arrow directions, and an
unshifted copy of the head for any other direction value. -/
theorem calculate_new_head_fresh_shift (heap : List Cell) (snake : List Nat)
    (d : Int) (hne : snake ≠ [])
    (hvalid : ∀ i ∈ snake, i < heap.length) :
    (∀ i, i < heap.length →
      (calculate_new_head_heap heap snake d).1.getD i (0, 0) =
        heap.getD i (0, 0)) ∧
    (calculate_new_head_heap heap snake d).2 ∉ snake ∧
    ((d = KEY_DOWN →
      (calculate_new_head_heap heap snake d).1.getD
          (calculate_new_head_heap heap snake d).2 (0, 0) =
        ((heap.getD (snake.headD 0) (0, 0)).1 + 1,
         (heap.getD (snake.headD 0) (0, 0)).2)) ∧
     (d = KEY_UP →
      (calculate_new_head_heap heap snake d).1.getD
          (calculate_new_head_heap heap snake d).2 (0, 0) =
        ((heap.getD (snake.headD 0) (0, 0)).1 - 1,
         (heap.getD (snake.headD 0) (0, 0)).2)) ∧
     (d = KEY_LEFT →
      (calculate_new_head_heap heap snake d).1.getD
          (calculate_new_head_heap heap snake d).2 (0, 0) =
        ((heap.getD (snake.headD 0) (0, 0)).1,
         (heap.getD (snake.headD 0) (0, 0)).2 - 1)) ∧
     (d = KEY_RIGHT →
      (calculate_new_head_heap heap snake d).1.getD
          (calculate_new_head_heap heap snake d).2 (0, 0) =
        ((heap.getD (snake.headD 0) (0, 0)).1,
         (heap.getD (snake.headD 0) (0, 0)).2 + 1)) ∧
     (d ≠ KEY_DOWN ∧ d ≠ KEY_UP ∧ d ≠ KEY_LEFT ∧ d ≠ KEY_RIGHT →
      (calculate_new_head_heap heap snake d).1.getD
          (calculate_new_head_heap heap snake d).2 (0, 0) =
        heap.getD (snake.headD 0) (0, 0))) := by
  have hval : (calculate_new_head_heap heap snake d).1.getD
      (calculate_new_head_heap heap snake d).2 (0, 0) =
      shift_head (heap.getD (snake.headD 0) (0, 0)) d := by
    unfold calculate_new_head_heap
    simp [List.getD]
  refine ⟨?_, ?_, ?_⟩
  · intro i hi
    unfold calculate_new_head_heap
    simp only [List.getD_eq_getElem?_getD]
    rw [List.getElem?_append, if_pos hi]
  · intro hmem
    exact absurd (hvalid _ hmem) (lt_irrefl _)
  · refine ⟨?_, ?_, ?_, ?_, ?_⟩ <;> intro hd
    · rw [hval, hd]
      unfold shift_head
      rw [if_pos rfl]
    · rw [hval, hd]
      unfold shift_head
      rw [if_neg (by decide), if_pos rfl]
    · rw [hval, hd]
      unfold shift_head
      rw [if_neg (by decide), if_neg (by decide), if_pos rfl]
    · rw [hval, hd]
      unfold shift_head
      rw [if_neg (by decide), if_neg (by decide), if_neg (by decide),
        if_pos rfl]
    · rw [hval]
      unfold shift_head
      rw [if_neg hd.1, if_neg hd.2.1, if_neg hd.2.2.1, if_neg hd.2.2.2]

/-- Witness for C10: heap `[(5,5),(5,4)]`, snake ids `[0,1]`, direction
Right: the fresh cell gets id 2 (not a snake id), holds `(5,6)` — the head
shifted one column right — and the original head cell at id 0 still holds
`(5,5)`. -/
theorem calculate_new_head_fresh_shift_witness :
    (calculate_new_head_heap [((5 : Int), (5 : Int)), (5, 4)] [0, 1]
        KEY_RIGHT).1.getD 0 (0, 0) =
      [((5 : Int), (5 : Int)), (5, 4)].getD 0 (0, 0) ∧
    (calculate_new_head_heap [((5 : Int), (5 : Int)), (5, 4)] [0, 1]
        KEY_RIGHT).2 ∉ [0, 1] ∧
    (calculate_new_head_heap [((5 : Int), (5 : Int)), (5, 4)] [0, 1]
        KEY_RIGHT).1.getD
      (calculate_new_head_heap [((5 : Int), (5 : Int)), (5, 4)] [0, 1]
        KEY_RIGHT).2 (0, 0) = (5, 6) := by
  have ht := calculate_new_head_fresh_shift [((5 : Int), (5 : Int)), (5, 4)]
    [0, 1] KEY_RIGHT (by decide) (by decide)
  refine ⟨ht.1 0 (by decide), ht.2.1, ?_⟩
  have hv := ht.2.2.2.2.2.1 rfl
  rw [hv]
  decide

end Snake
